/-
Verification of the chaishu-worker-service knowledge-graph pipeline.

Shallow embedding of the queueing, throttling and task-service code:
  - src/services/kg_task_queue_service.py   (per-provider queues, batch loading)
  - src/services/ai_provider_throttle.py    (failure counting, suspension)
  - src/services/kg_task_worker.py          (worker loop, guard loop)
  - src/services/knowledge_graph_task_service.py (task state machine)
  - src/services/knowledge_graph_service.py (graph-node deletion by task id)
  - src/services/knowledge_graph_extractor.py (task run entry)

Redis lists are Lean lists whose head is the left end of the Redis list:
lpush conses, rpush appends, lpop takes the head, brpop takes the last
element.  Redis keys are strings; key-indexed state is a function from
keys to values.  Timestamps are integers (seconds).  Keys that carry a
TTL are stored together with the information needed to decide existence.
-/
import Mathlib

namespace Chaishu

/-- Status values of KnowledgeGraphTask.status (models/database.py line 313). -/
inductive TaskStatus
  | created
  | running
  | paused
  | completed
  | failed
  | cancelled
deriving DecidableEq, Repr

/-- Status values of KnowledgeGraphChapterStatus.status (models/database.py line 360). -/
inductive ChapterState
  | pending
  | running
  | completed
  | failed
  | skipped
deriving DecidableEq, Repr

/-- Queue element, the dict pushed by enqueue_task and enqueue_to_main_queue:
a task id together with the provider field recorded at enqueue time. -/
structure QItem where
  task_id : Int
  provider : String
deriving DecidableEq, Repr

/-- Batch metadata hash written by load_next_batch
(kg_task_queue_service.py lines 270-276): load time, moved count, provider,
and the TTL applied by the expire call. -/
structure BatchMeta where
  loaded_at : Int
  task_count : Nat
  provider : String
  expire_seconds : Int
deriving DecidableEq, Repr

/-- The Redis list state used by the queue service: the legacy per-provider
queue (kg:ai_queue:...), the main queue (kg:main_queue:...), the active batch
(kg:active_batch:...) and the batch metadata hash, all indexed by full key. -/
structure QueueState where
  aiQueue : String → List QItem
  mainQueue : String → List QItem
  activeBatch : String → List QItem
  batchMeta : String → Option BatchMeta

/-- Pointwise update of key-indexed state. -/
def updateFn {α : Type} (f : String → α) (k : String) (v : α) : String → α :=
  fun q => if q = k then v else f q

/-- ASCII lower-casing of one character, the effect of Python str.lower() on
the ASCII provider names this code base uses. -/
def asciiLower (c : Char) : Char :=
  if 65 ≤ c.toNat ∧ c.toNat ≤ 90 then Char.ofNat (c.toNat + 32) else c

/-- Whitespace stripping at both ends, the effect of Python str.strip(). -/
def stripChars (l : List Char) : List Char :=
  ((l.dropWhile Char.isWhitespace).reverse.dropWhile Char.isWhitespace).reverse

/-- Provider-name normalisation used by every key helper:
Python (provider or "rules").strip().lower(). -/
def normalize_provider (p : String) : String :=
  let base := if p = "" then "rules" else p
  String.mk ((stripChars base.data).map asciiLower)

/-- Key of the legacy per-provider queue (kg_task_queue_service.py _queue_key). -/
def _queue_key (p : String) : String := "kg:ai_queue:" ++ normalize_provider p

/-- Key of the main queue (kg_task_queue_service.py get_main_queue_key). -/
def get_main_queue_key (p : String) : String := "kg:main_queue:" ++ normalize_provider p

/-- Key of the active batch (kg_task_queue_service.py get_active_batch_queue_key). -/
def get_active_batch_queue_key (p : String) : String := "kg:active_batch:" ++ normalize_provider p

/-- Key of the batch metadata hash (kg_task_queue_service.py line 270). -/
def get_batch_meta_key (p : String) : String := "kg:batch_meta:" ++ normalize_provider p

/-- enqueue_task (kg_task_queue_service.py lines 27-46): rpush of the item onto
the legacy queue of the provider. -/
def enqueue_task (st : QueueState) (tid : Int) (p : String) : QueueState :=
  let k := _queue_key p
  { st with aiQueue := updateFn st.aiQueue k (st.aiQueue k ++ [{ task_id := tid, provider := p }]) }

/-- brpop_task (kg_task_queue_service.py lines 49-67): blocking right pop from
the legacy queue; returns none when the queue stays empty past the timeout. -/
def brpop_task (st : QueueState) (p : String) : Option QItem × QueueState :=
  let k := _queue_key p
  match (st.aiQueue k).getLast? with
  | none => (none, st)
  | some x => (some x, { st with aiQueue := updateFn st.aiQueue k (st.aiQueue k).dropLast })

/-- enqueue_to_main_queue (kg_task_queue_service.py lines 184-210): rpush onto
the main queue of the provider. -/
def enqueue_to_main_queue (st : QueueState) (tid : Int) (p : String) : QueueState :=
  let k := get_main_queue_key p
  { st with mainQueue := updateFn st.mainQueue k (st.mainQueue k ++ [{ task_id := tid, provider := p }]) }

/-- brpop_from_active_batch (kg_task_queue_service.py lines 285-310): blocking
right pop from the active batch of the provider. -/
def brpop_from_active_batch (st : QueueState) (p : String) : Option QItem × QueueState :=
  let k := get_active_batch_queue_key p
  match (st.activeBatch k).getLast? with
  | none => (none, st)
  | some x => (some x, { st with activeBatch := updateFn st.activeBatch k (st.activeBatch k).dropLast })

/-- The move loop inside load_next_batch (kg_task_queue_service.py lines 252-264):
up to batch_size times, lpop the main queue and lpush the result onto the active
batch, stopping when the main queue is empty; returns the remaining main queue,
the new active batch, and the loaded counter. -/
def moveBatch : Nat → List QItem → List QItem → Nat → List QItem × List QItem × Nat
  | 0, m, a, n => (m, a, n)
  | _ + 1, [], a, n => ([], a, n)
  | k + 1, x :: rest, a, n => moveBatch k rest (x :: a) (n + 1)

/-- load_next_batch (kg_task_queue_service.py lines 225-282): return 0 when the
active batch is non-empty; otherwise move up to batch_size items from the head
of the main queue to the head of the active batch, write the batch metadata
hash with a 24 hour TTL when at least one item moved, and return the count. -/
def load_next_batch (st : QueueState) (provider : String) (batch_size : Nat) (now : Int) :
    Nat × QueueState :=
  let main_queue_key := get_main_queue_key provider
  let active_batch_key := get_active_batch_queue_key provider
  if 0 < (st.activeBatch active_batch_key).length then (0, st)
  else
    let moved := moveBatch batch_size (st.mainQueue main_queue_key) (st.activeBatch active_batch_key) 0
    let loaded := moved.2.2
    let st1 : QueueState :=
      { st with mainQueue := updateFn st.mainQueue main_queue_key moved.1,
                activeBatch := updateFn st.activeBatch active_batch_key moved.2.1 }
    if 0 < loaded then
      let meta : Option BatchMeta :=
        some { loaded_at := now, task_count := loaded, provider := provider,
               expire_seconds := 86400 }
      (loaded, { st1 with batchMeta := updateFn st1.batchMeta (get_batch_meta_key provider) meta })
    else (loaded, st1)

/-- Projection of a KnowledgeGraphTask row (models/database.py lines 296-341)
onto the fields the task service reads and writes.  Counters are naturals,
times are integer seconds, nullable columns are options. -/
structure TaskRec where
  status : TaskStatus
  total_chapters : Nat
  completed_chapters : Nat
  failed_chapters : Nat
  skipped_chapters : Nat
  current_chapter_id : Option Int
  total_entities : Nat
  total_relations : Nat
  error_message : Option String
  last_error_chapter_id : Option Int
  auto_retry_enabled : Bool
  retry_interval_minutes : Option Nat
  failed_at : Option Int
  retry_scheduled_at : Option Int
  retry_count : Nat
  started_at : Option Int
  completed_at : Option Int
  paused_at : Option Int
  updated_at : Int
deriving DecidableEq, Repr

/-- Per-provider throttle state in Redis (ai_provider_throttle.py): the
consecutive-failure counter under ai:provider:fail:<p> (an absent key is
modelled as count 0; its 24 hour TTL is not modelled because no claim depends
on it) and the suspension key ai:provider:suspend:<p> stored as its expiry
time. -/
structure ThrottleState where
  failCount : String → Nat
  suspendedUntil : String → Option Int

/-- System state seen by the throttle module: the Redis queues, the throttle
keys and the relational task table as an association list from task id. -/
structure WorkerSysState where
  queues : QueueState
  throttle : ThrottleState
  tasks : List (Int × TaskRec)

def MAX_CONSECUTIVE_FAILURES : Nat := 3

def SUSPEND_SECONDS : Int := 600

/-- is_suspended (ai_provider_throttle.py lines 78-101): true when the name is
non-empty and the suspension key exists, that is, its TTL has not expired. -/
def is_suspended (th : ThrottleState) (p : String) (now : Int) : Bool :=
  if p = "" then false
  else
    match th.suspendedUntil p with
    | none => false
    | some u => decide (now < u)

/-- get_failure_count (ai_provider_throttle.py lines 104-117): read the
counter; an absent key reads as 0. -/
def get_failure_count (th : ThrottleState) (p : String) : Nat :=
  if p = "" then 0 else th.failCount p

/-- reset_failures (ai_provider_throttle.py lines 120-132): delete the
failure-counter key of the provider. -/
def reset_failures (st : WorkerSysState) (p : String) : WorkerSysState :=
  if p = "" then st
  else
    { st with throttle :=
        { st.throttle with failCount := updateFn st.throttle.failCount p 0 } }

/-- The statement from src.services.kg_task_worker import
reassign_provider_active_tasks executed inside _set_suspended
(ai_provider_throttle.py line 157).  kg_task_worker.py defines no function of
that name, and neither does any other file of the repository, so the import
raises ImportError at every call; this definition is that constant outcome. -/
def reassign_provider_active_tasks_import : Except String Unit :=
  Except.error "ImportError: cannot import name reassign_provider_active_tasks"

/-- Embedding of _set_suspended (ai_provider_throttle.py lines 135-163): set
the suspension key with the given TTL, then attempt to import and run the
reassignment of the queued tasks of the provider.  The import fails (see
reassign_provider_active_tasks_import) and the surrounding except block logs
and swallows the error, so the queues and the task table are left unchanged;
no code in this function (or in the module) touches task statuses. -/
def set_suspended (st : WorkerSysState) (p : String) (now : Int) (seconds : Int) :
    WorkerSysState :=
  if p = "" then st
  else
    let st1 : WorkerSysState :=
      { st with throttle :=
          { st.throttle with
              suspendedUntil := updateFn st.throttle.suspendedUntil p (some (now + seconds)) } }
    match reassign_provider_active_tasks_import with
    | Except.ok _ => st1
    | Except.error _ => st1

/-- increment_failure (ai_provider_throttle.py lines 166-207): no-op reporting
the stored count when already suspended; otherwise increment the counter and,
once the threshold is met, suspend, reset the counter and report (0, true). -/
def increment_failure (st : WorkerSysState) (p : String) (now : Int)
    (max_failures : Nat) (suspend_seconds : Int) : (Nat × Bool) × WorkerSysState :=
  if p = "" then ((0, false), st)
  else if is_suspended st.throttle p now then ((get_failure_count st.throttle p, true), st)
  else
    let new_count := st.throttle.failCount p + 1
    let st1 : WorkerSysState :=
      { st with throttle :=
          { st.throttle with failCount := updateFn st.throttle.failCount p new_count } }
    if max_failures ≤ new_count then
      ((0, true), reset_failures (set_suspended st1 p now suspend_seconds) p)
    else ((new_count, false), st1)

/-- One take-a-task step of the worker loop kg_task_worker_process
(kg_task_worker.py lines 131-214): when the provider is named, is not rules
and is suspended, the iteration sleeps without touching any queue (lines
134-157); otherwise the next task reference is obtained at line 168 by
brpop_task, the blocking right pop of the LEGACY queue kg:ai_queue:<provider>.
No line of the worker loop reads the active batch. -/
def kg_task_worker_step (queues : QueueState) (th : ThrottleState) (provider : String)
    (now : Int) : Option QItem × QueueState :=
  if provider ≠ "" ∧ provider ≠ "rules" ∧ is_suspended th provider now then (none, queues)
  else brpop_task queues provider

/-- Baseline task row holding the column defaults of knowledge_graph_tasks
(models/database.py lines 296-341). -/
def defaultTask : TaskRec :=
  { status := TaskStatus.created, total_chapters := 0, completed_chapters := 0,
    failed_chapters := 0, skipped_chapters := 0, current_chapter_id := none,
    total_entities := 0, total_relations := 0, error_message := none,
    last_error_chapter_id := none, auto_retry_enabled := false,
    retry_interval_minutes := some 10, failed_at := none, retry_scheduled_at := none,
    retry_count := 0, started_at := none, completed_at := none, paused_at := none,
    updated_at := 0 }

/-- Throttle state with no failures recorded and no provider suspended. -/
def noThrottle : ThrottleState :=
  { failCount := fun _ => 0, suspendedUntil := fun _ => none }

/-- Queue state with every list empty. -/
def emptyQueueState : QueueState :=
  { aiQueue := fun _ => [], mainQueue := fun _ => [], activeBatch := fun _ => [],
    batchMeta := fun _ => none }

/-- Throttle state for the C4 witness: provider openai has two recorded
consecutive failures and is not suspended. -/
def throttleC4 : ThrottleState :=
  { failCount := fun q => if q = "openai" then 2 else 0, suspendedUntil := fun _ => none }

/-- System state for the C4 witness. -/
def stC4 : WorkerSysState :=
  { queues := emptyQueueState, throttle := throttleC4, tasks := [] }

/-- Queue item sitting in the active batch of openai in the C3 state. -/
def qItemAct : QItem := { task_id := 9, provider := "openai" }

/-- Queue item sitting in the main queue of openai in the C3 state. -/
def qItemMain : QItem := { task_id := 8, provider := "openai" }

/-- Queue state for C3: one ref in the active batch of openai and one in its
main queue. -/
def queuesC3 : QueueState :=
  { aiQueue := fun _ => [],
    mainQueue := fun k => if k = "kg:main_queue:openai" then [qItemMain] else [],
    activeBatch := fun k => if k = "kg:active_batch:openai" then [qItemAct] else [],
    batchMeta := fun _ => none }

/-- System state for C3: the queues above plus task 9 currently running. -/
def stC3 : WorkerSysState :=
  { queues := queuesC3, throttle := noThrottle,
    tasks := [(9, { defaultTask with status := TaskStatus.running })] }

/-- Task refs for the C1 counterexample. -/
def refA : QItem := { task_id := 1, provider := "p1" }

/-- Task ref sitting in the legacy queue in the C1 counterexample. -/
def refB : QItem := { task_id := 2, provider := "p1" }

/-- Queue state for C1: refA waits in the main queue of p1, refB in the legacy
queue of p1, the active batch is empty. -/
def queuesC1 : QueueState :=
  { aiQueue := fun k => if k = "kg:ai_queue:p1" then [refB] else [],
    mainQueue := fun k => if k = "kg:main_queue:p1" then [refA] else [],
    activeBatch := fun _ => [],
    batchMeta := fun _ => none }

/-- Projection of a KnowledgeGraphChapterStatus row (models/database.py lines
348-373) onto the fields the service reads and writes. -/
structure ChapterRow where
  chapter_id : Int
  status : ChapterState
  entities_extracted : Nat
  relations_extracted : Nat
  error_message : Option String
  started_at : Option Int
  completed_at : Option Int
  updated_at : Int
deriving DecidableEq, Repr

/-- Result dict of try_start_task: the success flag and the reason code. -/
structure StartResult where
  success : Bool
  reason : String
deriving DecidableEq, Repr

/-- try_start_task (knowledge_graph_task_service.py lines 385-433): read the
task row under a row lock; refuse with a reason code when the status is
running, completed or cancelled; otherwise set running (recording started_at
when the old status was created or paused), commit and report success. -/
def try_start_task (t : TaskRec) (now : Int) : StartResult × TaskRec :=
  if t.status = TaskStatus.running then
    ({ success := false, reason := "already_running" }, t)
  else if t.status = TaskStatus.completed then
    ({ success := false, reason := "already_completed" }, t)
  else if t.status = TaskStatus.cancelled then
    ({ success := false, reason := "cancelled" }, t)
  else
    let t1 : TaskRec :=
      { t with
          status := TaskStatus.running,
          updated_at := now,
          started_at :=
            if t.status = TaskStatus.created ∨ t.status = TaskStatus.paused then some now
            else t.started_at }
    ({ success := true, reason := "started" }, t1)

/-- First-match row update: the effect of query(...).first() followed by
attribute mutation, within the chapter rows of one task. -/
def updateRow (rows : List ChapterRow) (cid : Int) (f : ChapterRow → ChapterRow) :
    List ChapterRow :=
  match rows with
  | [] => []
  | r :: rest => if r.chapter_id = cid then f r :: rest else r :: updateRow rest cid f

/-- Field mutation applied to the chapter row by update_chapter_status
(knowledge_graph_task_service.py lines 246-262): an absent error message or
count argument leaves the stored field alone. -/
def chapterUpd (status : ChapterState) (error_message : Option String)
    (entities_count relations_count : Option Nat) (now : Int) (r : ChapterRow) : ChapterRow :=
  { r with
      status := status,
      updated_at := now,
      started_at := if status = ChapterState.running then some now else r.started_at,
      completed_at :=
        if status = ChapterState.completed ∨ status = ChapterState.failed ∨
            status = ChapterState.skipped then some now
        else r.completed_at,
      error_message :=
        match error_message with
        | some e => some e
        | none => r.error_message,
      entities_extracted := entities_count.getD r.entities_extracted,
      relations_extracted := relations_count.getD r.relations_extracted }

/-- The in-memory counting of knowledge_graph_task_service.py lines 272-293
and 881-897: a row whose chapter_id equals the updated chapter counts with the
new status, every other row counts with its stored status. -/
def statusAsCount (cid : Int) (news : ChapterState) (t : ChapterState) (r : ChapterRow) : Bool :=
  if r.chapter_id = cid then decide (news = t) else decide (r.status = t)

/-- update_chapter_status (knowledge_graph_task_service.py lines 234-319).
The whole body runs in one session committed at the end; dbError models a
database error anywhere before the commit succeeds, in which case the rollback
of lines 314-317 leaves every row and counter as before and False is
returned. -/
def update_chapter_status (task : TaskRec) (rows : List ChapterRow) (chapter_id : Int)
    (status : ChapterState) (error_message : Option String)
    (entities_count relations_count : Option Nat) (now : Int) (dbError : Bool) :
    Bool × TaskRec × List ChapterRow :=
  let rows1 :=
    updateRow rows chapter_id (chapterUpd status error_message entities_count relations_count now)
  let completed_count := rows.countP (statusAsCount chapter_id status ChapterState.completed)
  let failed_count := rows.countP (statusAsCount chapter_id status ChapterState.failed)
  let skipped_count := rows.countP (statusAsCount chapter_id status ChapterState.skipped)
  let task1 : TaskRec :=
    { task with
      completed_chapters := completed_count,
      failed_chapters := failed_count,
      skipped_chapters := skipped_count,
      error_message :=
        if status = ChapterState.failed ∧ error_message.isSome then error_message
        else task.error_message,
      last_error_chapter_id :=
        if status = ChapterState.failed ∧ error_message.isSome then some chapter_id
        else task.last_error_chapter_id,
      current_chapter_id :=
        if status = ChapterState.running then some chapter_id else task.current_chapter_id,
      updated_at := now }
  if dbError then (false, task, rows) else (true, task1, rows1)

/-- Python (task.retry_interval_minutes or 10): None and 0 both yield 10. -/
def retryIntervalOrDefault (x : Option Nat) : Nat :=
  match x with
  | none => 10
  | some v => if v = 0 then 10 else v

/-- update_task_status (knowledge_graph_task_service.py lines 321-383).  On
completed it recounts the completed rows; on failed it records the failure
time, schedules the auto-retry when enabled (now plus retry_interval_minutes),
and sets failed_chapters to the number of pending rows PLUS the number of
failed rows (lines 356-366). -/
def update_task_status (task : TaskRec) (rows : List ChapterRow) (status : TaskStatus)
    (entity_count relation_count : Option Nat) (now : Int) : Bool × TaskRec :=
  let t1 : TaskRec := { task with status := status, updated_at := now }
  let t2 : TaskRec :=
    if status = TaskStatus.running ∧ task.status = TaskStatus.created then
      { t1 with started_at := some now }
    else if status = TaskStatus.completed then
      { t1 with
          completed_at := some now,
          completed_chapters :=
            rows.countP (fun r => decide (r.status = ChapterState.completed)) }
    else if status = TaskStatus.paused then { t1 with paused_at := some now }
    else if status = TaskStatus.failed then
      { t1 with
          failed_at := some now,
          retry_scheduled_at :=
            if task.auto_retry_enabled then
              some (now + 60 * (retryIntervalOrDefault task.retry_interval_minutes : Int))
            else task.retry_scheduled_at,
          failed_chapters :=
            rows.countP (fun r => decide (r.status = ChapterState.pending)) +
              rows.countP (fun r => decide (r.status = ChapterState.failed)) }
    else t1
  let t3 : TaskRec :=
    { t2 with
        total_entities := entity_count.getD t2.total_entities,
        total_relations := relation_count.getD t2.total_relations }
  (true, t3)

/-- Field mutation applied to the chapter row by
process_chapter_with_transaction_safety (lines 858-871): completed with the
extracted counts when the graph write succeeded, failed with the graph error
message otherwise. -/
def processUpd (entities_count relations_count : Nat) (neo4j_success : Bool) (now : Int)
    (r : ChapterRow) : ChapterRow :=
  if neo4j_success then
    { r with
        status := ChapterState.completed,
        entities_extracted := entities_count,
        relations_extracted := relations_count,
        completed_at := some now,
        error_message := none,
        updated_at := now }
  else
    { r with
        status := ChapterState.failed,
        error_message := some "知识图谱数据创建失败",
        completed_at := some now,
        updated_at := now }

/-- process_chapter_with_transaction_safety (knowledge_graph_task_service.py
lines 827-929): set the chapter row to completed or failed from the graph
outcome, recount completed and failed (only) over the in-memory statuses, add
the entity and relation counts to the task totals on success, commit; a
missing row or a database error returns False with nothing committed. -/
def process_chapter_with_transaction_safety (task : TaskRec) (rows : List ChapterRow)
    (chapter_id : Int) (entities_count relations_count : Nat) (neo4j_success : Bool)
    (now : Int) (dbError : Bool) : Bool × TaskRec × List ChapterRow :=
  if (rows.find? (fun x => decide (x.chapter_id = chapter_id))).isNone then
    (false, task, rows)
  else
    let newStatus := if neo4j_success then ChapterState.completed else ChapterState.failed
    let rows1 := updateRow rows chapter_id (processUpd entities_count relations_count neo4j_success now)
    let completed_count := rows.countP (statusAsCount chapter_id newStatus ChapterState.completed)
    let failed_count := rows.countP (statusAsCount chapter_id newStatus ChapterState.failed)
    let task1 : TaskRec :=
      { task with
          completed_chapters := completed_count,
          failed_chapters := failed_count,
          updated_at := now,
          total_entities :=
            if neo4j_success then task.total_entities + entities_count else task.total_entities,
          total_relations :=
            if neo4j_success then task.total_relations + relations_count
            else task.total_relations }
    if dbError then (false, task, rows) else (true, task1, rows1)

/-- Chapter row in status pending used by the concrete counterexamples. -/
def rowPending : ChapterRow :=
  { chapter_id := 1, status := ChapterState.pending, entities_extracted := 0,
    relations_extracted := 0, error_message := none, started_at := none,
    completed_at := none, updated_at := 0 }

/-- Chapter row in status failed used by the concrete counterexamples. -/
def rowFailed : ChapterRow :=
  { rowPending with chapter_id := 2, status := ChapterState.failed }

/-- Task for the C6 counterexample, with counters agreeing with the rows. -/
def taskC6 : TaskRec :=
  { defaultTask with status := TaskStatus.running, total_chapters := 2, failed_chapters := 1 }

/-- retry_failed_chapters (knowledge_graph_task_service.py lines 479-545),
without the optional chapter filter (execute_retry passes none): reset the
failed rows to pending or, when no row is failed, refresh the pending rows; a
failed or paused task is set to paused, never directly to running, the error
cleared, and the failure counter decreased by the number of rows that were
failed. -/
def retry_failed_chapters (task : TaskRec) (rows : List ChapterRow) (now : Int) :
    Bool × TaskRec × List ChapterRow :=
  let failedRows := rows.filter (fun x => decide (x.status = ChapterState.failed))
  let targetStatus := if failedRows.isEmpty then ChapterState.pending else ChapterState.failed
  let originallyFailed :=
    (if failedRows.isEmpty then
        rows.filter (fun x => decide (x.status = ChapterState.pending))
      else failedRows).countP (fun x => decide (x.status = ChapterState.failed))
  let rows1 := rows.map (fun x =>
    if x.status = targetStatus then { x with status := ChapterState.pending, updated_at := now }
    else x)
  let task1 : TaskRec :=
    if task.status = TaskStatus.failed ∨ task.status = TaskStatus.paused then
      { task with
          status := TaskStatus.paused,
          failed_chapters :=
            if 0 < task.failed_chapters ∧ 0 < originallyFailed then
              task.failed_chapters - originallyFailed
            else task.failed_chapters,
          error_message := none,
          updated_at := now }
    else task
  (true, task1, rows1)

/-- execute_retry (knowledge_graph_task_service.py lines 1031-1057): increment
retry_count, clear retry_scheduled_at, commit, then run
retry_failed_chapters. -/
def execute_retry (task : TaskRec) (rows : List ChapterRow) (now : Int) :
    Bool × TaskRec × List ChapterRow :=
  let task1 : TaskRec :=
    { task with
        retry_count := task.retry_count + 1,
        retry_scheduled_at := none,
        updated_at := now }
  retry_failed_chapters task1 rows now

/-- Predicate of get_tasks_pending_retry (knowledge_graph_task_service.py
lines 969-997): failed tasks with auto-retry enabled whose scheduled retry
time is due. -/
def pending_retry (t : TaskRec) (now : Int) : Bool :=
  decide (t.status = TaskStatus.failed) && t.auto_retry_enabled &&
    match t.retry_scheduled_at with
    | none => false
    | some s => decide (s ≤ now)

/-- Reclassification applied by _check_zombie_tasks (kg_task_worker.py lines
632-705) to one task whose status is running and that no live worker claims:
completed when every counted chapter completed, failed on a recorded error or
failed chapters, created otherwise. -/
def zombie_reclassify (t : TaskRec) (now : Int) : TaskRec :=
  if t.total_chapters ≤ t.completed_chapters ∧ 0 < t.total_chapters then
    { t with
        status := TaskStatus.completed,
        completed_at := some (t.completed_at.getD now) }
  else if t.error_message.isSome ∨ 0 < t.failed_chapters then
    { t with status := TaskStatus.failed }
  else
    { t with status := TaskStatus.created }

/-- Effect of one iteration of the guard loop start_auto_worker_guard._loop
(kg_task_worker.py lines 756-798) on one task record: the iteration spawns
worker processes (start_kg_task_workers, which reads no task row), every fifth
pass enqueues tasks in created status (_auto_start_created_tasks, which writes
queues, not task rows), and every twentieth pass reclassifies running tasks
that no live worker claims (_check_zombie_tasks).  No branch of the loop reads
retry_scheduled_at, and no code reachable from the loop calls execute_retry or
get_tasks_pending_retry. -/
def guard_cycle_task_effect (t : TaskRec) (claimedByWorker : Bool) (loopCount : Nat)
    (now : Int) : TaskRec :=
  if t.status = TaskStatus.running ∧ claimedByWorker = false ∧ loopCount % 20 = 0 then
    zombie_reclassify t now
  else t

/-- Failed task with auto-retry enabled whose retry is due at time 100. -/
def taskC8 : TaskRec :=
  { defaultTask with
      status := TaskStatus.failed, auto_retry_enabled := true,
      failed_at := some 0, retry_scheduled_at := some 60, retry_count := 0 }

/-- Chapter-existence guard of create_task (knowledge_graph_task_service.py
lines 29-65): the queried chapter list decides the call; with no chapters the
call raises ValueError and no task row is committed, otherwise a created task
with one pending row per chapter and total_chapters set is committed. -/
def create_task (chapters : List Int) : Except String TaskRec :=
  if chapters.isEmpty then Except.error "没有找到可处理的章节"
  else
    Except.ok { defaultTask with
                  total_chapters := chapters.length,
                  status := TaskStatus.created }

/-- is_task_fully_completed (knowledge_graph_task_service.py lines 153-180):
False when there are no chapter rows at all, otherwise true exactly when every
row is completed. -/
def is_task_fully_completed (rows : List ChapterRow) : Bool :=
  if rows.isEmpty then false
  else rows.all (fun x => decide (x.status = ChapterState.completed))

/-- Entry of build_knowledge_graph_with_task
(knowledge_graph_extractor.py lines 558-591): try_start_task, then, when
get_pending_chapters returns nothing, set the task completed when
is_task_fully_completed and failed otherwise; with pending chapters the main
extraction loop runs instead (outside this branch). -/
def run_task_start (task : TaskRec) (rows : List ChapterRow) (now : Int) : TaskRec :=
  let start := try_start_task task now
  if start.1.success = false then start.2
  else if (rows.filter (fun x => decide (x.status = ChapterState.pending))).isEmpty then
    if is_task_fully_completed rows then
      (update_task_status start.2 rows TaskStatus.completed none none now).2
    else (update_task_status start.2 rows TaskStatus.failed none none now).2
  else start.2

/-- Graph node as the deletion query sees it: an identity plus the task_id
multivalued property (knowledge_graph_service.py lines 619-644). -/
structure GraphNode where
  node_id : Int
  task_ids : List Int
deriving DecidableEq, Repr

/-- delete_task_nodes_by_task_id (knowledge_graph_service.py lines 619-644):
for every node whose task_id list contains the id, remove every occurrence of
the id; detach-delete the node when the list becomes empty.  Nodes not
containing the id are untouched. -/
def delete_task_nodes_by_task_id (nodes : List GraphNode) (tid : Int) : List GraphNode :=
  nodes.filterMap (fun n =>
    if tid ∈ n.task_ids then
      let rest := n.task_ids.filter (fun x => decide (x ≠ tid))
      if rest.isEmpty then none else some { n with task_ids := rest }
    else some n)

/-- Plot-extraction state keyed by the kg task: plot_extraction_tasks rows as
(plot task id, kg_task_id) and plot_extraction_logs rows as
(log id, plot task id). -/
structure PlotData where
  plotTasks : List (Int × Int)
  plotLogs : List (Int × Int)
deriving DecidableEq, Repr

/-- restart_task (knowledge_graph_task_service.py lines 585-681): only a
completed, failed or cancelled task restarts (any other status raises and the
rollback leaves everything unchanged); on success the graph nodes of the task
are deleted by id, the plot-extraction tasks of this kg task and their logs
are deleted, the task returns to created with completed_chapters,
failed_chapters, total_entities and total_relations zeroed and the error
cleared (lines 651-658 assign nothing to skipped_chapters), and every chapter
row is reset to pending with cleared error and zeroed counters. -/
def restart_task (task : TaskRec) (rows : List ChapterRow) (nodes : List GraphNode)
    (plots : PlotData) (task_id : Int) (now : Int) :
    Bool × TaskRec × List ChapterRow × List GraphNode × PlotData :=
  if task.status = TaskStatus.completed ∨ task.status = TaskStatus.failed ∨
      task.status = TaskStatus.cancelled then
    let nodes1 := delete_task_nodes_by_task_id nodes task_id
    let plotIds := (plots.plotTasks.filter (fun pt => decide (pt.2 = task_id))).map Prod.fst
    let plots1 : PlotData :=
      { plotTasks := plots.plotTasks.filter (fun pt => decide (pt.2 ≠ task_id)),
        plotLogs := plots.plotLogs.filter (fun lg => decide (lg.2 ∉ plotIds)) }
    let task1 : TaskRec :=
      { task with
          status := TaskStatus.created,
          completed_chapters := 0,
          failed_chapters := 0,
          total_entities := 0,
          total_relations := 0,
          error_message := none,
          updated_at := now }
    let rows1 := rows.map (fun r =>
      { r with
          status := ChapterState.pending,
          error_message := none,
          entities_extracted := 0,
          relations_extracted := 0,
          updated_at := now })
    (true, task1, rows1, nodes1, plots1)
  else (false, task, rows, nodes, plots)

/-- Completed task with one skipped chapter recorded in its counters. -/
def taskC7 : TaskRec :=
  { defaultTask with
      status := TaskStatus.completed, total_chapters := 2,
      completed_chapters := 1, skipped_chapters := 1 }

theorem moveBatch_eq (B : Nat) : ∀ (m a : List QItem) (n : Nat),
    moveBatch B m a n =
      (m.drop (min B m.length), (m.take (min B m.length)).reverse ++ a, n + min B m.length) := by
  induction B with
  | zero => intro m a n; simp [moveBatch]
  | succ k ih =>
    intro m a n
    cases m with
    | nil => simp [moveBatch]
    | cons x rest =>
      rw [moveBatch, ih]
      refine Prod.ext ?_ (Prod.ext ?_ ?_)
      all_goals simp [Nat.succ_min_succ, List.append_assoc]
      omega

/-- C5: load_next_batch returns 0 and moves nothing when the active batch of
the provider is non-empty; otherwise it moves min(batch_size, main length)
entries, in order, from the head of the main queue to the head of the active
batch, leaves the legacy queue untouched, records the batch metadata with a
24 hour TTL exactly when at least one entry moved, and returns the moved
count. -/
theorem load_next_batch_spec (st : QueueState) (p : String) (B : Nat) (now : Int) :
    (st.activeBatch (get_active_batch_queue_key p) ≠ [] →
      (load_next_batch st p B now).1 = 0 ∧ (load_next_batch st p B now).2 = st) ∧
    (st.activeBatch (get_active_batch_queue_key p) = [] →
      (load_next_batch st p B now).1 = min B (st.mainQueue (get_main_queue_key p)).length ∧
      (load_next_batch st p B now).2.mainQueue (get_main_queue_key p) =
        (st.mainQueue (get_main_queue_key p)).drop (load_next_batch st p B now).1 ∧
      (load_next_batch st p B now).2.activeBatch (get_active_batch_queue_key p) =
        ((st.mainQueue (get_main_queue_key p)).take (load_next_batch st p B now).1).reverse ∧
      (load_next_batch st p B now).2.aiQueue = st.aiQueue ∧
      (0 < (load_next_batch st p B now).1 →
        (load_next_batch st p B now).2.batchMeta (get_batch_meta_key p) =
          some { loaded_at := now, task_count := (load_next_batch st p B now).1,
                 provider := p, expire_seconds := 86400 }) ∧
      ((load_next_batch st p B now).1 = 0 →
        (load_next_batch st p B now).2.batchMeta = st.batchMeta)) := by
  constructor
  · intro hne
    have hlen : 0 < (st.activeBatch (get_active_batch_queue_key p)).length :=
      List.length_pos.mpr hne
    simp [load_next_batch, hlen]
  · intro hemp
    have hlen : ¬ 0 < (st.activeBatch (get_active_batch_queue_key p)).length := by
      simp [hemp]
    by_cases hpos : 0 < min B (st.mainQueue (get_main_queue_key p)).length
    · have hne0 : min B (st.mainQueue (get_main_queue_key p)).length ≠ 0 :=
        Nat.pos_iff_ne_zero.mp hpos
      simp [load_next_batch, hlen, hemp, moveBatch_eq, updateFn, hpos, hne0]
    · have h0 : min B (st.mainQueue (get_main_queue_key p)).length = 0 :=
        Nat.eq_zero_of_not_pos hpos
      simp [load_next_batch, hlen, hemp, moveBatch_eq, updateFn, hpos, h0]

/-- C4: for a named provider whose stored consecutive-failure count is at most
2 (the only values the module itself ever stores, since reaching 3 resets the
counter), increment_failure at the default threshold 3 and default suspension
600 seconds behaves as claimed: when already suspended it reports the stored
count with true and changes nothing; otherwise it increments, and exactly when
the incremented count reaches 3 it suspends the provider until now + 600,
resets the counter to 0 and reports (0, true); below 3 it reports the
incremented count and false, leaving the provider unsuspended. -/
theorem increment_failure_spec (st : WorkerSysState) (p : String) (now : Int)
    (hp : p ≠ "") (hc : st.throttle.failCount p ≤ 2) :
    (is_suspended st.throttle p now = true →
      increment_failure st p now MAX_CONSECUTIVE_FAILURES SUSPEND_SECONDS =
        ((st.throttle.failCount p, true), st)) ∧
    (is_suspended st.throttle p now = false →
      (st.throttle.failCount p + 1 = 3 →
        (increment_failure st p now MAX_CONSECUTIVE_FAILURES SUSPEND_SECONDS).1 = (0, true) ∧
        (increment_failure st p now MAX_CONSECUTIVE_FAILURES
            SUSPEND_SECONDS).2.throttle.suspendedUntil p = some (now + 600) ∧
        (increment_failure st p now MAX_CONSECUTIVE_FAILURES
            SUSPEND_SECONDS).2.throttle.failCount p = 0 ∧
        (increment_failure st p now MAX_CONSECUTIVE_FAILURES SUSPEND_SECONDS).2.queues =
          st.queues ∧
        (increment_failure st p now MAX_CONSECUTIVE_FAILURES SUSPEND_SECONDS).2.tasks =
          st.tasks) ∧
      (st.throttle.failCount p + 1 < 3 →
        (increment_failure st p now MAX_CONSECUTIVE_FAILURES SUSPEND_SECONDS).1 =
          (st.throttle.failCount p + 1, false) ∧
        is_suspended (increment_failure st p now MAX_CONSECUTIVE_FAILURES
            SUSPEND_SECONDS).2.throttle p now = false ∧
        (increment_failure st p now MAX_CONSECUTIVE_FAILURES
            SUSPEND_SECONDS).2.throttle.failCount p = st.throttle.failCount p + 1)) := by
  constructor
  · intro hsusp
    simp [increment_failure, hp, hsusp, get_failure_count]
  · intro hns
    constructor
    · intro h3
      have hth : MAX_CONSECUTIVE_FAILURES ≤ st.throttle.failCount p + 1 := by
        simp [MAX_CONSECUTIVE_FAILURES]; omega
      simp [increment_failure, hp, hns, hth, set_suspended, reset_failures,
        reassign_provider_active_tasks_import, updateFn, SUSPEND_SECONDS]
    · intro hlt
      have hth : ¬ MAX_CONSECUTIVE_FAILURES ≤ st.throttle.failCount p + 1 := by
        simp [MAX_CONSECUTIVE_FAILURES]; omega
      simp [increment_failure, hp, hns, hth, updateFn]
      simpa [is_suspended, hp, updateFn] using hns

/-- Witness for increment_failure_spec: a third consecutive failure on openai
reports (0, true) and suspends the provider until second 600. -/
theorem increment_failure_spec_witness :
    "openai" ≠ "" ∧ stC4.throttle.failCount "openai" ≤ 2 ∧
    is_suspended stC4.throttle "openai" 0 = false ∧
    stC4.throttle.failCount "openai" + 1 = 3 ∧
    (increment_failure stC4 "openai" 0 MAX_CONSECUTIVE_FAILURES SUSPEND_SECONDS).1 =
      (0, true) ∧
    (increment_failure stC4 "openai" 0 MAX_CONSECUTIVE_FAILURES
        SUSPEND_SECONDS).2.throttle.suspendedUntil "openai" = some ((0 : Int) + 600) := by
  refine ⟨by decide, by decide, by decide, by decide, ?_, ?_⟩
  · exact (((increment_failure_spec stC4 "openai" 0 (by decide) (by decide)).2
      (by decide)).1 (by decide)).1
  · exact (((increment_failure_spec stC4 "openai" 0 (by decide) (by decide)).2
      (by decide)).1 (by decide)).2.1

/-- C3 (code bug): suspending openai while one task ref sits in its active
batch, one in its main queue and task 9 runs on it sets the suspension key
but migrates nothing and pauses nothing.  The import of
reassign_provider_active_tasks inside _set_suspended raises, because that
helper is defined nowhere in the repository, and the except block swallows the
error, so both refs are still queued on openai and task 9 is still running. -/
theorem set_suspended_does_not_migrate :
    (set_suspended stC3 "openai" 0 600).throttle.suspendedUntil "openai" =
      some ((0 : Int) + 600) ∧
    (set_suspended stC3 "openai" 0 600).queues.activeBatch "kg:active_batch:openai" =
      [qItemAct] ∧
    (set_suspended stC3 "openai" 0 600).queues.mainQueue "kg:main_queue:openai" =
      [qItemMain] ∧
    (set_suspended stC3 "openai" 0 600).tasks =
      [(9, { defaultTask with status := TaskStatus.running })] := by
  refine ⟨rfl, rfl, rfl, rfl⟩

/-- C1 counterexample: the batch scheduler moves refA into the active batch of
p1, yet the next worker pop returns refB from the legacy queue kg:ai_queue:p1,
not refA, and refA is still sitting in the active batch afterwards: the worker
does not pop the active batch the scheduler loads. -/
theorem worker_does_not_pop_active_batch :
    ((load_next_batch queuesC1 "p1" 10 0).2.activeBatch "kg:active_batch:p1" = [refA]) ∧
    (kg_task_worker_step (load_next_batch queuesC1 "p1" 10 0).2 noThrottle "p1" 0).1 =
      some refB ∧
    (kg_task_worker_step (load_next_batch queuesC1 "p1" 10 0).2 noThrottle "p1" 0).1 ≠
      some refA ∧
    ((kg_task_worker_step (load_next_batch queuesC1 "p1" 10 0).2
        noThrottle "p1" 0).2.activeBatch "kg:active_batch:p1" = [refA]) := by
  refine ⟨by decide, by decide, by decide, by decide⟩

/-- C1 (amended): a worker bound to a non-suspended provider obtains its next
task reference by a blocking right pop of the legacy queue kg:ai_queue:<p>;
the popped reference is the tail of that list, the legacy queue loses exactly
that element, and the main queues and active batches of every provider are
left untouched by the pop. -/
theorem kg_task_worker_step_pops_legacy_queue (queues : QueueState) (th : ThrottleState)
    (p : String) (now : Int)
    (h : ¬ (p ≠ "" ∧ p ≠ "rules" ∧ is_suspended th p now)) :
    (kg_task_worker_step queues th p now).1 = (queues.aiQueue (_queue_key p)).getLast? ∧
    (kg_task_worker_step queues th p now).2.activeBatch = queues.activeBatch ∧
    (kg_task_worker_step queues th p now).2.mainQueue = queues.mainQueue ∧
    (kg_task_worker_step queues th p now).2.aiQueue (_queue_key p) =
      (queues.aiQueue (_queue_key p)).dropLast := by
  cases hLast : (queues.aiQueue (_queue_key p)).getLast? with
  | none =>
    have hnil : queues.aiQueue (_queue_key p) = [] := by
      cases hq : queues.aiQueue (_queue_key p) with
      | nil => rfl
      | cons y ys => rw [hq] at hLast; simp [List.getLast?_concat] at hLast
    simp [kg_task_worker_step, h, brpop_task, hnil]
  | some x =>
    simp [kg_task_worker_step, h, brpop_task, hLast, updateFn]

/-- Witness for kg_task_worker_step_pops_legacy_queue at the C1 state: p1 is
not suspended and the pop takes refB, the tail of the legacy queue. -/
theorem kg_task_worker_step_pops_legacy_queue_witness :
    (¬ ("p1" ≠ "" ∧ "p1" ≠ "rules" ∧ is_suspended noThrottle "p1" 0)) ∧
    (kg_task_worker_step queuesC1 noThrottle "p1" 0).1 =
      (queuesC1.aiQueue (_queue_key "p1")).getLast? := by
  refine ⟨by decide, ?_⟩
  exact (kg_task_worker_step_pops_legacy_queue queuesC1 noThrottle "p1" 0 (by decide)).1

/-- C2: try_start_task refuses with a reason code and leaves the task row
unchanged exactly when the status is running, completed or cancelled; in every
other case (created, paused, failed) it sets the status to running and reports
success with reason started. -/
theorem try_start_task_spec (t : TaskRec) (now : Int) :
    ((t.status = TaskStatus.running ∨ t.status = TaskStatus.completed ∨
        t.status = TaskStatus.cancelled) →
      (try_start_task t now).1.success = false ∧ (try_start_task t now).2 = t ∧
      ((try_start_task t now).1.reason = "already_running" ∨
        (try_start_task t now).1.reason = "already_completed" ∨
        (try_start_task t now).1.reason = "cancelled")) ∧
    (¬(t.status = TaskStatus.running ∨ t.status = TaskStatus.completed ∨
        t.status = TaskStatus.cancelled) →
      (try_start_task t now).1.success = true ∧
      (try_start_task t now).1.reason = "started" ∧
      (try_start_task t now).2.status = TaskStatus.running) := by
  constructor
  · rintro (h | h | h) <;> simp [try_start_task, h]
  · intro h
    push_neg at h
    obtain ⟨h1, h2, h3⟩ := h
    simp [try_start_task, h1, h2, h3]

/-- Witness for try_start_task_spec: a running task is refused unchanged, a
created task is promoted to running. -/
theorem try_start_task_spec_witness :
    (({ defaultTask with status := TaskStatus.running } : TaskRec).status = TaskStatus.running ∨
      ({ defaultTask with status := TaskStatus.running } : TaskRec).status = TaskStatus.completed ∨
      ({ defaultTask with status := TaskStatus.running } : TaskRec).status = TaskStatus.cancelled) ∧
    (try_start_task { defaultTask with status := TaskStatus.running } 5).1.success = false ∧
    ¬(defaultTask.status = TaskStatus.running ∨ defaultTask.status = TaskStatus.completed ∨
        defaultTask.status = TaskStatus.cancelled) ∧
    (try_start_task defaultTask 5).2.status = TaskStatus.running := by
  refine ⟨Or.inl rfl, ?_, by decide, ?_⟩
  · exact ((try_start_task_spec { defaultTask with status := TaskStatus.running } 5).1
      (Or.inl rfl)).1
  · exact ((try_start_task_spec defaultTask 5).2 (by decide)).2.2

theorem length_updateRow (cid : Int) (f : ChapterRow → ChapterRow) :
    ∀ rows : List ChapterRow, (updateRow rows cid f).length = rows.length := by
  intro rows
  induction rows with
  | nil => rfl
  | cons r rest ih =>
    by_cases h : r.chapter_id = cid <;> simp [updateRow, h, ih]

theorem countP_updateRow (cid : Int) (news : ChapterState) (t : ChapterState)
    (f : ChapterRow → ChapterRow) (hs : ∀ r, (f r).status = news) :
    ∀ rows : List ChapterRow,
      rows.Pairwise (fun a b => a.chapter_id ≠ b.chapter_id) →
      (updateRow rows cid f).countP (fun x => decide (x.status = t)) =
        rows.countP (statusAsCount cid news t) := by
  intro rows
  induction rows with
  | nil => intro _; rfl
  | cons r rest ih =>
    intro hp
    rw [List.pairwise_cons] at hp
    obtain ⟨hr, hrest⟩ := hp
    by_cases h : r.chapter_id = cid
    · have hcong : rest.countP (statusAsCount cid news t) =
          rest.countP (fun x => decide (x.status = t)) := by
        apply List.countP_congr
        intro x hx
        have hne : x.chapter_id ≠ cid := fun hxx => (hr x hx) (h.trans hxx.symm)
        simp [statusAsCount, hne]
      simp [updateRow, h, List.countP_cons, hs, statusAsCount, hcong]
    · simp [updateRow, h, List.countP_cons, statusAsCount, ih hrest]

/-- C6 (amended): for a task whose chapter rows carry pairwise distinct
chapter ids, a successful update_chapter_status leaves the stored completed,
failed and skipped counters equal to the aggregation over the resulting rows
and keeps total_chapters and the number of rows unchanged; a successful
process_chapter_with_transaction_safety does the same for the completed and
failed counters (it does not recompute the skipped counter).  The original
claim fails for update_task_status: see update_task_status_breaks_counters. -/
theorem chapter_counters_consistent (task : TaskRec) (rows : List ChapterRow)
    (cid : Int) (status : ChapterState) (em : Option String) (ec rc : Option Nat)
    (e r : Nat) (ok : Bool) (now : Int)
    (hnd : rows.Pairwise (fun a b => a.chapter_id ≠ b.chapter_id)) :
    ((update_chapter_status task rows cid status em ec rc now false).2.1.completed_chapters =
        (update_chapter_status task rows cid status em ec rc now false).2.2.countP
          (fun x => decide (x.status = ChapterState.completed)) ∧
      (update_chapter_status task rows cid status em ec rc now false).2.1.failed_chapters =
        (update_chapter_status task rows cid status em ec rc now false).2.2.countP
          (fun x => decide (x.status = ChapterState.failed)) ∧
      (update_chapter_status task rows cid status em ec rc now false).2.1.skipped_chapters =
        (update_chapter_status task rows cid status em ec rc now false).2.2.countP
          (fun x => decide (x.status = ChapterState.skipped)) ∧
      (update_chapter_status task rows cid status em ec rc now false).2.1.total_chapters =
        task.total_chapters ∧
      (update_chapter_status task rows cid status em ec rc now false).2.2.length =
        rows.length) ∧
    ((process_chapter_with_transaction_safety task rows cid e r ok now false).1 = true →
      (process_chapter_with_transaction_safety task rows cid e r ok now
          false).2.1.completed_chapters =
        (process_chapter_with_transaction_safety task rows cid e r ok now false).2.2.countP
          (fun x => decide (x.status = ChapterState.completed)) ∧
      (process_chapter_with_transaction_safety task rows cid e r ok now
          false).2.1.failed_chapters =
        (process_chapter_with_transaction_safety task rows cid e r ok now false).2.2.countP
          (fun x => decide (x.status = ChapterState.failed))) := by
  constructor
  · have hupd := countP_updateRow cid status
    have hs : ∀ x, (chapterUpd status em ec rc now x).status = status := fun _ => rfl
    refine ⟨?_, ?_, ?_, rfl, ?_⟩
    · simp [update_chapter_status, hupd ChapterState.completed _ hs rows hnd]
    · simp [update_chapter_status, hupd ChapterState.failed _ hs rows hnd]
    · simp [update_chapter_status, hupd ChapterState.skipped _ hs rows hnd]
    · simp [update_chapter_status, length_updateRow]
  · intro hok
    by_cases hf : (rows.find? (fun x => decide (x.chapter_id = cid))).isNone
    · simp [process_chapter_with_transaction_safety, hf] at hok
    · cases ok with
      | true =>
        have hs : ∀ x, (processUpd e r true now x).status = ChapterState.completed :=
          fun _ => rfl
        constructor
        · simpa [process_chapter_with_transaction_safety, hf] using
            (countP_updateRow cid ChapterState.completed ChapterState.completed
              (processUpd e r true now) hs rows hnd).symm
        · simpa [process_chapter_with_transaction_safety, hf] using
            (countP_updateRow cid ChapterState.completed ChapterState.failed
              (processUpd e r true now) hs rows hnd).symm
      | false =>
        have hs : ∀ x, (processUpd e r false now x).status = ChapterState.failed :=
          fun _ => rfl
        constructor
        · simpa [process_chapter_with_transaction_safety, hf] using
            (countP_updateRow cid ChapterState.failed ChapterState.completed
              (processUpd e r false now) hs rows hnd).symm
        · simpa [process_chapter_with_transaction_safety, hf] using
            (countP_updateRow cid ChapterState.failed ChapterState.failed
              (processUpd e r false now) hs rows hnd).symm

/-- C6 counterexample: update_task_status to failed leaves the rows unchanged
yet stores failed_chapters = pending + failed = 2 while only one row is
failed, so after this task-status update the stored counter differs from the
aggregation over the ChapterStatus rows. -/
theorem update_task_status_breaks_counters :
    (update_task_status taskC6 [rowPending, rowFailed] TaskStatus.failed none none
        0).2.failed_chapters = 2 ∧
    [rowPending, rowFailed].countP (fun x => decide (x.status = ChapterState.failed)) = 1 := by
  refine ⟨by decide, by decide⟩

/-- Witness for chapter_counters_consistent: marking chapter 1 completed on
the two-row task keeps the counters equal to the row aggregation. -/
theorem chapter_counters_consistent_witness :
    ([rowPending, rowFailed] : List ChapterRow).Pairwise
      (fun a b => a.chapter_id ≠ b.chapter_id) ∧
    (update_chapter_status taskC6 [rowPending, rowFailed] 1 ChapterState.completed none
        none none 3 false).2.1.completed_chapters =
      (update_chapter_status taskC6 [rowPending, rowFailed] 1 ChapterState.completed none
          none none 3 false).2.2.countP
        (fun x => decide (x.status = ChapterState.completed)) := by
  have hp : ([rowPending, rowFailed] : List ChapterRow).Pairwise
      (fun a b => a.chapter_id ≠ b.chapter_id) := by
    simp [List.pairwise_cons, rowPending, rowFailed]
  exact ⟨hp, (chapter_counters_consistent taskC6 [rowPending, rowFailed] 1
    ChapterState.completed none none none 0 0 true 3 hp).1.1⟩

/-- C10: a database error during update_chapter_status or
process_chapter_with_transaction_safety makes the function roll back and
return False with every chapter row and every task counter exactly as before
the call; without a database error update_chapter_status returns True, and
process_chapter_with_transaction_safety returns True when the chapter row
exists and False, changing nothing, when it does not. -/
theorem transaction_rollback_spec (task : TaskRec) (rows : List ChapterRow)
    (cid : Int) (status : ChapterState) (em : Option String) (ec rc : Option Nat)
    (e r : Nat) (ok : Bool) (now : Int) :
    (update_chapter_status task rows cid status em ec rc now true = (false, task, rows)) ∧
    ((update_chapter_status task rows cid status em ec rc now false).1 = true) ∧
    (process_chapter_with_transaction_safety task rows cid e r ok now true =
      (false, task, rows)) ∧
    ((rows.find? (fun x => decide (x.chapter_id = cid))).isSome →
      (process_chapter_with_transaction_safety task rows cid e r ok now false).1 = true) ∧
    ((rows.find? (fun x => decide (x.chapter_id = cid))).isNone →
      process_chapter_with_transaction_safety task rows cid e r ok now false =
        (false, task, rows)) := by
  refine ⟨rfl, rfl, ?_, ?_, ?_⟩
  · by_cases hf : (rows.find? (fun x => decide (x.chapter_id = cid))).isNone
    · simp [process_chapter_with_transaction_safety, hf]
    · simp [process_chapter_with_transaction_safety, hf]
  · intro hsome
    cases hfind : rows.find? (fun x => decide (x.chapter_id = cid)) with
    | none => rw [hfind] at hsome; simp at hsome
    | some v => simp [process_chapter_with_transaction_safety, hfind]
  · intro hnone
    simp [process_chapter_with_transaction_safety, hnone]

/-- Witness for transaction_rollback_spec: on the two-row task, a database
error rolls back and a present chapter row commits. -/
theorem transaction_rollback_spec_witness :
    (update_chapter_status taskC6 [rowPending, rowFailed] 1 ChapterState.completed none
        none none 3 true = (false, taskC6, [rowPending, rowFailed])) ∧
    ([rowPending, rowFailed].find? (fun x => decide (x.chapter_id = (1 : Int)))).isSome ∧
    (process_chapter_with_transaction_safety taskC6 [rowPending, rowFailed] 1 4 5 true 3
        false).1 = true := by
  refine ⟨(transaction_rollback_spec taskC6 [rowPending, rowFailed] 1
      ChapterState.completed none none none 4 5 true 3).1, by decide, ?_⟩
  exact (transaction_rollback_spec taskC6 [rowPending, rowFailed] 1
    ChapterState.completed none none none 4 5 true 3).2.2.2.1 (by decide)

/-- C8 (amended): entering failed with auto-retry enabled schedules
retry_scheduled_at at the failure time plus retry_interval_minutes, and
execute_retry, when invoked on a failed task, increments retry_count, clears
retry_scheduled_at, resets the failed chapters to pending and transitions the
task to paused, never to running; but the guard loop of this service never
invokes it: a failed task, due for retry or not, passes through every guard
cycle unchanged. -/
theorem auto_retry_spec (t : TaskRec) (rows : List ChapterRow) (now : Int)
    (claimed : Bool) (n : Nat) :
    (t.auto_retry_enabled = true →
      (update_task_status t rows TaskStatus.failed none none now).2.retry_scheduled_at =
        some (now + 60 * (retryIntervalOrDefault t.retry_interval_minutes : Int)) ∧
      (update_task_status t rows TaskStatus.failed none none now).2.failed_at = some now) ∧
    (t.status = TaskStatus.failed →
      (execute_retry t rows now).2.1.status = TaskStatus.paused ∧
      (execute_retry t rows now).2.1.retry_count = t.retry_count + 1 ∧
      (execute_retry t rows now).2.1.retry_scheduled_at = none ∧
      ((rows.filter (fun x => decide (x.status = ChapterState.failed))).isEmpty = false →
        (execute_retry t rows now).2.2 = rows.map (fun x =>
          if x.status = ChapterState.failed then
            { x with status := ChapterState.pending, updated_at := now }
          else x))) ∧
    (t.status = TaskStatus.failed → guard_cycle_task_effect t claimed n now = t) := by
  refine ⟨?_, ?_, ?_⟩
  · intro hen
    simp [update_task_status, hen]
  · intro hst
    refine ⟨?_, ?_, ?_, ?_⟩
    · simp [execute_retry, retry_failed_chapters, hst]
    · simp [execute_retry, retry_failed_chapters, hst]
    · simp [execute_retry, retry_failed_chapters, hst]
    · intro hne
      simp [execute_retry, retry_failed_chapters, hst, hne]
  · intro hst
    simp [guard_cycle_task_effect, hst]

/-- C8 counterexample: taskC8 is due for retry at time 100 (the
get_tasks_pending_retry predicate holds), yet a guard cycle, including the
twentieth one that runs the zombie check, leaves the task exactly unchanged:
still failed, retry_count still 0, retry_scheduled_at still set.  The guard
loop of this service never polls retry_scheduled_at, so the polling and retry
the claim describes do not happen. -/
theorem guard_cycle_ignores_due_retry :
    pending_retry taskC8 100 = true ∧
    guard_cycle_task_effect taskC8 false 20 100 = taskC8 ∧
    guard_cycle_task_effect taskC8 false 5 100 = taskC8 ∧
    taskC8.retry_count = 0 ∧ taskC8.status = TaskStatus.failed := by
  refine ⟨by decide, by decide, by decide, rfl, rfl⟩

/-- Witness for auto_retry_spec at taskC8: failing schedules the retry 600
seconds out, and execute_retry on the failed task pauses it. -/
theorem auto_retry_spec_witness :
    taskC8.auto_retry_enabled = true ∧
    (update_task_status taskC8 [] TaskStatus.failed none none 100).2.retry_scheduled_at =
      some ((100 : Int) + 60 * (retryIntervalOrDefault taskC8.retry_interval_minutes : Int)) ∧
    taskC8.status = TaskStatus.failed ∧
    (execute_retry taskC8 [rowFailed] 100).2.1.status = TaskStatus.paused ∧
    (execute_retry taskC8 [rowFailed] 100).2.1.retry_count = taskC8.retry_count + 1 ∧
    guard_cycle_task_effect taskC8 false 20 100 = taskC8 := by
  have h := auto_retry_spec taskC8 [rowFailed] 100 false 20
  have h0 := auto_retry_spec taskC8 ([] : List ChapterRow) 100 false 20
  exact ⟨rfl, (h0.1 rfl).1, rfl, (h.2.1 rfl).1, (h.2.1 rfl).2.1, h.2.2 rfl⟩

/-- C9 counterexample: a task with no chapters is rejected at creation with
ValueError, and a created task that nonetheless has no ChapterStatus rows is
classified failed when run, not completed: is_task_fully_completed is False on
an empty row set, so the empty-pending branch marks the task failed. -/
theorem empty_task_runs_to_failed :
    create_task [] = Except.error "没有找到可处理的章节" ∧
    (run_task_start defaultTask [] 0).status = TaskStatus.failed ∧
    (run_task_start defaultTask [] 0).status ≠ TaskStatus.completed := by
  refine ⟨rfl, by decide, by decide⟩

/-- C9 (amended): a task whose chapter list is empty is rejected at creation
rather than created; and when a task in created status with no ChapterStatus
rows is run anyway, try_start_task promotes it and the empty-pending branch
classifies it failed, never completed. -/
theorem empty_chapter_task_spec (task : TaskRec) (now : Int)
    (h : task.status = TaskStatus.created) :
    create_task [] = Except.error "没有找到可处理的章节" ∧
    (run_task_start task [] now).status = TaskStatus.failed := by
  refine ⟨rfl, ?_⟩
  simp [run_task_start, try_start_task, h, is_task_fully_completed, update_task_status]

/-- Witness for empty_chapter_task_spec at the default created task. -/
theorem empty_chapter_task_spec_witness :
    defaultTask.status = TaskStatus.created ∧
    (run_task_start defaultTask [] 0).status = TaskStatus.failed := by
  exact ⟨rfl, (empty_chapter_task_spec defaultTask 0 rfl).2⟩

theorem delete_task_nodes_removes_id (nodes : List GraphNode) (tid : Int) :
    ∀ n ∈ delete_task_nodes_by_task_id nodes tid, tid ∉ n.task_ids := by
  intro n hn
  rw [delete_task_nodes_by_task_id, List.mem_filterMap] at hn
  obtain ⟨a, _, ha⟩ := hn
  by_cases hmem : tid ∈ a.task_ids
  · simp only [if_pos hmem] at ha
    by_cases hrest : (a.task_ids.filter (fun x => decide (x ≠ tid))).isEmpty = true
    · simp only [if_pos hrest] at ha
      exact absurd ha (by simp)
    · simp only [if_neg hrest, Option.some.injEq] at ha
      rw [← ha]
      intro hcontra
      rw [List.mem_filter] at hcontra
      simp at hcontra
  · simp only [if_neg hmem, Option.some.injEq] at ha
    rw [← ha]
    exact hmem

theorem delete_task_nodes_keeps_unrelated (nodes : List GraphNode) (tid : Int) :
    ∀ n ∈ nodes, tid ∉ n.task_ids → n ∈ delete_task_nodes_by_task_id nodes tid := by
  intro n hn hmem
  rw [delete_task_nodes_by_task_id, List.mem_filterMap]
  exact ⟨n, hn, by simp [hmem]⟩

theorem delete_task_nodes_keeps_shared (nodes : List GraphNode) (tid : Int) :
    ∀ n ∈ nodes, tid ∈ n.task_ids →
      (n.task_ids.filter (fun x => decide (x ≠ tid))).isEmpty = false →
      ({ n with task_ids := n.task_ids.filter (fun x => decide (x ≠ tid)) } : GraphNode) ∈
        delete_task_nodes_by_task_id nodes tid := by
  intro n hn hmem hrest
  rw [delete_task_nodes_by_task_id, List.mem_filterMap]
  refine ⟨n, hn, ?_⟩
  have hne : ¬ ((n.task_ids.filter (fun x => decide (x ≠ tid))).isEmpty = true) := by
    rw [hrest]
    exact Bool.false_ne_true
  simp only [if_pos hmem, if_neg hne]

/-- C7 (amended): restart_task succeeds exactly on a completed, failed or
cancelled task, refusing any other status with every table unchanged; on
success the task is created again with the completed, failed, entity and
relation counters zeroed and the error cleared, while skipped_chapters keeps
its previous value; every chapter row is pending with cleared error and zeroed
counters; the id is removed from the task_id multiset of every surviving graph
node, nodes not containing the id survive unchanged, nodes containing it
together with other ids survive with the id removed (nodes holding only the id
are deleted, see delete_task_nodes_removes_id applied to their emptied list);
and no plot-extraction task of this kg task survives. -/
theorem restart_task_spec (task : TaskRec) (rows : List ChapterRow)
    (nodes : List GraphNode) (plots : PlotData) (tid : Int) (now : Int) :
    (¬(task.status = TaskStatus.completed ∨ task.status = TaskStatus.failed ∨
        task.status = TaskStatus.cancelled) →
      restart_task task rows nodes plots tid now = (false, task, rows, nodes, plots)) ∧
    ((task.status = TaskStatus.completed ∨ task.status = TaskStatus.failed ∨
        task.status = TaskStatus.cancelled) →
      (restart_task task rows nodes plots tid now).1 = true ∧
      (restart_task task rows nodes plots tid now).2.1.status = TaskStatus.created ∧
      (restart_task task rows nodes plots tid now).2.1.completed_chapters = 0 ∧
      (restart_task task rows nodes plots tid now).2.1.failed_chapters = 0 ∧
      (restart_task task rows nodes plots tid now).2.1.total_entities = 0 ∧
      (restart_task task rows nodes plots tid now).2.1.total_relations = 0 ∧
      (restart_task task rows nodes plots tid now).2.1.error_message = none ∧
      (restart_task task rows nodes plots tid now).2.1.skipped_chapters =
        task.skipped_chapters ∧
      (∀ x ∈ (restart_task task rows nodes plots tid now).2.2.1,
        x.status = ChapterState.pending ∧ x.error_message = none ∧
        x.entities_extracted = 0 ∧ x.relations_extracted = 0) ∧
      (restart_task task rows nodes plots tid now).2.2.1.length = rows.length ∧
      (∀ n ∈ (restart_task task rows nodes plots tid now).2.2.2.1, tid ∉ n.task_ids) ∧
      (∀ n ∈ nodes, tid ∉ n.task_ids →
        n ∈ (restart_task task rows nodes plots tid now).2.2.2.1) ∧
      (∀ n ∈ nodes, tid ∈ n.task_ids →
        (n.task_ids.filter (fun x => decide (x ≠ tid))).isEmpty = false →
        ({ n with task_ids := n.task_ids.filter (fun x => decide (x ≠ tid)) } : GraphNode) ∈
          (restart_task task rows nodes plots tid now).2.2.2.1) ∧
      (∀ pt ∈ (restart_task task rows nodes plots tid now).2.2.2.2.plotTasks,
        pt.2 ≠ tid)) := by
  constructor
  · intro h
    simp only [restart_task, if_neg h]
  · intro h
    simp only [restart_task, if_pos h]
    refine ⟨by trivial, by trivial, by trivial, by trivial, by trivial, by trivial,
      by trivial, by trivial, ?_, by simp, ?_, ?_, ?_, ?_⟩
    · intro x hx
      rw [List.mem_map] at hx
      obtain ⟨a, _, ha⟩ := hx
      rw [← ha]
      exact ⟨rfl, rfl, rfl, rfl⟩
    · exact delete_task_nodes_removes_id nodes tid
    · exact delete_task_nodes_keeps_unrelated nodes tid
    · exact delete_task_nodes_keeps_shared nodes tid
    · intro pt hpt
      rw [List.mem_filter] at hpt
      simpa using hpt.2

/-- C7 counterexample: restarting a completed task whose skipped_chapters is 1
succeeds, resets every chapter row to pending, but leaves skipped_chapters at
1: lines 651-658 of restart_task zero the completed, failed, entity and
relation counters but never assign skipped_chapters, so the task counters are
not all zeroed as the claim states. -/
theorem restart_task_keeps_skipped_counter :
    (restart_task taskC7 [rowPending, rowFailed] []
        { plotTasks := [], plotLogs := [] } 5 0).1 = true ∧
    (restart_task taskC7 [rowPending, rowFailed] []
        { plotTasks := [], plotLogs := [] } 5 0).2.1.skipped_chapters = 1 := by
  refine ⟨by decide, by decide⟩

/-- Witness for restart_task_spec: restarting taskC7 succeeds, returns it to
created with zeroed completed counter, and removes task 5 from a shared graph
node while keeping the other id. -/
theorem restart_task_spec_witness :
    (taskC7.status = TaskStatus.completed ∨ taskC7.status = TaskStatus.failed ∨
      taskC7.status = TaskStatus.cancelled) ∧
    (restart_task taskC7 [rowPending] [{ node_id := 1, task_ids := [5, 6] }]
        { plotTasks := [(3, 5)], plotLogs := [(1, 3)] } 5 0).2.1.status =
      TaskStatus.created ∧
    (∀ n ∈ (restart_task taskC7 [rowPending] [{ node_id := 1, task_ids := [5, 6] }]
        { plotTasks := [(3, 5)], plotLogs := [(1, 3)] } 5 0).2.2.2.1,
      (5 : Int) ∉ n.task_ids) := by
  have h := (restart_task_spec taskC7 [rowPending]
    [{ node_id := 1, task_ids := [5, 6] }]
    { plotTasks := [(3, 5)], plotLogs := [(1, 3)] } 5 0).2 (Or.inl rfl)
  exact ⟨Or.inl rfl, h.2.1, h.2.2.2.2.2.2.2.2.2.2.1⟩

/-- Witness for load_next_batch_spec: at the C1 queue state the active batch
of p1 is empty, one entry moves from the main queue, and at the C3 queue state
the non-empty active batch of openai blocks loading. -/
theorem load_next_batch_spec_witness :
    (queuesC1.activeBatch (get_active_batch_queue_key "p1") = [] ∧
      (load_next_batch queuesC1 "p1" 10 0).1 =
        min 10 (queuesC1.mainQueue (get_main_queue_key "p1")).length ∧
      (load_next_batch queuesC1 "p1" 10 0).2.activeBatch (get_active_batch_queue_key "p1") =
        ((queuesC1.mainQueue (get_main_queue_key "p1")).take
          (load_next_batch queuesC1 "p1" 10 0).1).reverse) ∧
    (queuesC3.activeBatch (get_active_batch_queue_key "openai") ≠ [] ∧
      (load_next_batch queuesC3 "openai" 10 0).1 = 0 ∧
      (load_next_batch queuesC3 "openai" 10 0).2 = queuesC3) := by
  constructor
  · have h := (load_next_batch_spec queuesC1 "p1" 10 0).2 (by decide)
    exact ⟨by decide, h.1, h.2.2.1⟩
  · have hne : queuesC3.activeBatch (get_active_batch_queue_key "openai") ≠ [] := by decide
    have h := (load_next_batch_spec queuesC3 "openai" 10 0).1 hne
    exact ⟨hne, h.1, h.2⟩

end Chaishu
